import Mathlib

/- Shallow embedding of src/serve.py, the single-file FastAPI "integration agent".
   Pure string helpers come first, then the data model (request schema, session
   store, capability records), then the per-stage handlers and the dispatching
   endpoint `agent_invoke`, and finally the theorems about the claims. -/

namespace Serve

/-- Python single-character str.replace(a, b): every use of str.replace in
serve.py outside brace escaping has single-character pattern and replacement
("/" to "_", ":" to "_", "?" to "_"), which is a character map. -/
def replChar (a b : Char) (cs : List Char) : List Char :=
  cs.map (fun c => if c = a then b else c)

/-- Brace escaping used throughout serve.py:
s.replace("\x7b", "\x7b\x7b").replace("\x7d", "\x7d\x7d").
The two sequential global replaces equal this one-pass doubling because the
first replace introduces no closing brace and the second replace does not
touch opening braces. -/
def sanitizeL : List Char → List Char
  | [] => []
  | '\x7b' :: rest => '\x7b' :: '\x7b' :: sanitizeL rest
  | '\x7d' :: rest => '\x7d' :: '\x7d' :: sanitizeL rest
  | c :: rest => c :: sanitizeL rest

/-- String-level brace escaping. -/
def sanitize (s : String) : String := String.mk (sanitizeL s.data)

/-- The pass re.sub(r"```(python|jsx)\n?", "", s) from format_response: scan
left to right, removing every occurrence of a python or jsx fence opening
together with an immediately following newline when present (the regex prefers
the longer match, alternation order python before jsx). Matches are
non-overlapping and scanning resumes after each removed occurrence, exactly as
re.sub does. -/
def subFence : List Char → List Char
  | '\x60' :: '\x60' :: '\x60' :: 'p' :: 'y' :: 't' :: 'h' :: 'o' :: 'n' :: '\n' :: rest =>
      subFence rest
  | '\x60' :: '\x60' :: '\x60' :: 'p' :: 'y' :: 't' :: 'h' :: 'o' :: 'n' :: rest =>
      subFence rest
  | '\x60' :: '\x60' :: '\x60' :: 'j' :: 's' :: 'x' :: '\n' :: rest =>
      subFence rest
  | '\x60' :: '\x60' :: '\x60' :: 'j' :: 's' :: 'x' :: rest =>
      subFence rest
  | c :: rest => c :: subFence rest
  | [] => []

/-- The pass s.replace("```", "") from format_response (left-to-right,
non-overlapping, like Python str.replace). -/
def stripTicks : List Char → List Char
  | '\x60' :: '\x60' :: '\x60' :: rest => stripTicks rest
  | c :: rest => c :: stripTicks rest
  | [] => []

/-- format_response from serve.py lines 912-915: first the regex substitution,
then removal of all remaining triple-backtick sequences. -/
def format_response (s : String) : String :=
  String.mk (stripTicks (subFence s.data))

/-- Whether a character list begins with three backticks, the start of any
fence marker. -/
def startsTicks : List Char → Bool
  | '\x60' :: '\x60' :: '\x60' :: _ => true
  | _ => false

/-- Whether a character list contains three consecutive backticks anywhere,
i.e. whether the string contains any fence marker at all. -/
def hasTicks : List Char → Bool
  | [] => false
  | c :: l => startsTicks (c :: l) || hasTicks l

/-- Python str.split for a single newline separator, as used by
backend_apiKey_result.split("\n") in stage 9: empty input yields one empty
piece, a trailing newline yields a trailing empty piece. -/
def splitNlAux : List Char → List Char → List String
  | [], acc => [String.mk acc.reverse]
  | '\n' :: rest, acc => String.mk acc.reverse :: splitNlAux rest []
  | c :: rest, acc => splitNlAux rest (c :: acc)

/-- String-level newline split. -/
def pySplitNl (s : String) : List String := splitNlAux s.data []

/-- Python "sep".join(xs). -/
def joinWith (sep : String) : List String → String
  | [] => ""
  | [x] => x
  | x :: xs => x ++ sep ++ joinWith sep xs

/-- Python str.endswith, used for the ".py" and ".js" filename tests. -/
def strEndsWith (s suff : String) : Bool :=
  List.isPrefixOf suff.data.reverse s.data.reverse

/-- One capability record as read back by doc.to_dict(): each field may be
absent, and every read in serve.py goes through dict.get with a "No ..."
default. -/
structure CapDoc where
  name : Option String := none
  endPoint : Option String := none
  headers : Option String := none
  routeName : Option String := none
  errorBody : Option String := none
  requestBody : Option String := none
  responseBody : Option String := none
  responseGuidance : Option String := none
  requestGuidance : Option String := none
deriving DecidableEq, Repr

/-- The parallel capability sequences accumulated in agent_invoke lines
170-224. The capabilities_* lists are initialised to [] before the fetch; the
sanitized_capabilities_* variables are only ever assigned inside the
`if doc_data:` body, so they are modelled as Option, none meaning the Python
local was never bound. -/
structure CapAcc where
  names : List String := []
  endPoints : List String := []
  headers : List String := []
  routeName : List String := []
  errorBody : List String := []
  requestBody : List String := []
  responseBody : List String := []
  responseGuidance : List String := []
  requestGuidance : List String := []
  s_errorBody : Option (List String) := none
  s_headers : Option (List String) := none
  s_requestBody : Option (List String) := none
  s_responseBody : Option (List String) := none
  s_responseGuidance : Option (List String) := none
deriving DecidableEq, Repr

/-- One iteration of `for doc_data in capability_docs:` (lines 186-224): a
falsy doc_data (a missing document) contributes nothing; a present document
appends one entry per field with the dict.get default, then recomputes every
sanitized list comprehension from the raw lists accumulated so far. -/
def capStep (acc : CapAcc) : Option CapDoc → CapAcc
  | none => acc
  | some d =>
    let names := acc.names ++ [d.name.getD "No name"]
    let endPoints := acc.endPoints ++ [d.endPoint.getD "No endPoint"]
    let headers := acc.headers ++ [d.headers.getD "No headers"]
    let routeName := acc.routeName ++ [d.routeName.getD "No routeName"]
    let errorBody := acc.errorBody ++ [d.errorBody.getD "No errorBody"]
    let requestBody := acc.requestBody ++ [d.requestBody.getD "No requestBody"]
    let responseBody := acc.responseBody ++ [d.responseBody.getD "No responseBody"]
    let responseGuidance := acc.responseGuidance ++ [d.responseGuidance.getD "No responseGuidance"]
    let requestGuidance := acc.requestGuidance ++ [d.requestGuidance.getD "No requestGuidance"]
    { names, endPoints, headers, routeName, errorBody, requestBody, responseBody,
      responseGuidance, requestGuidance,
      s_errorBody := some (errorBody.map sanitize),
      s_headers := some (headers.map sanitize),
      s_requestBody := some (requestBody.map sanitize),
      s_responseBody := some (responseBody.map sanitize),
      s_responseGuidance := some (responseGuidance.map sanitize) }

/-- Lines 182-224: the whole capability block is guarded by
`if request.capabilityRefs:`, so a missing or empty list leaves every
accumulator at its initial value (raw lists empty, sanitized locals unbound). -/
def buildCaps (capFetch : String → Option CapDoc) : Option (List String) → CapAcc
  | none => {}
  | some rs => if rs.isEmpty then {} else (rs.map capFetch).foldl capStep {}

/-- The per-session dict kept in session_store. Every branch of agent_invoke
replaces the stored dict wholesale, so fields a branch does not store are
none; reads go through dict.get with default "". -/
structure SessionState where
  step : Nat
  suggested_files : Option (List String) := none
  docReview_response : Option String := none
  backend_endpoint_response : Option String := none
  ui_response : Option String := none
  frontend_function_response : Option String := none
  integration_tests_result : Option String := none
  sanitized_backend_endpoint_response : Option String := none
  sanitised_frontend_function_response : Option String := none
  sanitized_docReview_response : Option String := none
  sanitised_frontend_generated_code : Option String := none
deriving DecidableEq, Repr

/-- The process-wide session_store dict: session id to stored state. -/
def SessionStore := String → Option SessionState

/-- Line 156: session_data = session_store.get(session_id, \x7b"step": 2\x7d). -/
def sessionGet (store : SessionStore) (sid : String) : SessionState :=
  (store sid).getD { step := 2 }

/-- The request schema AgentInvokeRequest (lines 133-146): the three
suggested_* lists and capabilityRefs are Optional with default None. -/
structure AgentInvokeRequest where
  input : String := ""
  session_id : String
  docslink : String
  repo : String
  project : String
  suggested_files : Option (List String) := none
  suggested_file_urls : Option (List String) := none
  suggested_file_paths : Option (List String) := none
  capabilityRefs : Option (List String) := none
  chat_history : List String := []

/-- External collaborators, as oracles: fileFetch is the text returned by
fetch_file_content for a url (envelope decoding already applied), capFetch is
fetch_capability_data (none = document does not exist), docGet is the
projectFiles read-back used by stages 6 and 7 (none = document does not
exist, otherwise the "code" field with the dict.get default "" applied), and
agentOut is the value of response.get("output", ...) seen by the dispatched
stage (none = the agent returned nothing usable, so the stage sentinel is
substituted). -/
structure World where
  fileFetch : String → String
  capFetch : String → Option CapDoc
  docGet : String → Option String
  agentOut : Option String

/-- The Python exceptions the handler can raise. -/
inductive PyErr
  | typeError
  | unboundLocal
  | indexError
deriving DecidableEq, Repr

/-- The response `output` field: a single string for stages 1-8, a list of
strings for stage 9. -/
inductive RespOutput
  | str : String → RespOutput
  | list : List String → RespOutput
deriving DecidableEq, Repr

/-- A value interpolated into a stage prompt: a scalar string or one of the
parallel capability lists. -/
inductive PromptVal
  | s : String → PromptVal
  | l : List String → PromptVal
deriving DecidableEq, Repr

/-- The JSON body returned by a stage. -/
structure StageResponse where
  step : Nat
  message : String
  output : RespOutput
deriving DecidableEq, Repr

/-- Observable outcome of one POST /agent/invoke call: the raised exception if
any, the returned body if any (None when the dispatch falls through),
projectFiles writes in order as (document name, code content), the wholesale
replacement written to session_store for this session id (none = untouched),
whether the agent was invoked, and the values interpolated into the
dispatched stage prompt. -/
structure RunOutcome where
  error : Option PyErr := none
  response : Option StageResponse := none
  persisted : List (String × String) := []
  sessionAfter : Option SessionState := none
  invokedAgent : Bool := false
  promptVals : List PromptVal := []
deriving DecidableEq, Repr

/-- Everything a stage branch can see. -/
structure Ctx where
  req : AgentInvokeRequest
  w : World
  session : SessionState
  caps : CapAcc
  sanitisedGithub : String

/-- Lines 226-285, `session_data["step"] == 1`: doc review. The raw agent
output is stored as the code of integrationStrategy.txt; only the returned
body is passed through format_response. -/
def stage1 (c : Ctx) : RunOutcome :=
  let docReview := c.w.agentOut.getD "No backend endpoint action performed."
  { response := some { step := 1, message := "Doc review generated",
                       output := .str (format_response docReview) }
    persisted := [("integrationStrategy.txt", docReview)]
    sessionAfter := some { step := 2, suggested_files := c.req.suggested_files,
                           docReview_response := some docReview }
    invokedAgent := true
    promptVals := [.s c.req.docslink] }

/-- Lines 287-380, step 2: backend endpoint generation. The prompt f-string
reads sanitized_capabilities_headers and sanitized_capabilities_errorBody,
which raises UnboundLocalError when the capability block never bound them;
the persist loop writes the first ".py" suggested file, falling back to
"app.py", and iterating a None suggested_files raises TypeError. -/
def stage2 (c : Ctx) : RunOutcome :=
  match c.caps.s_headers, c.caps.s_errorBody with
  | some sh, some se =>
    let promptVals : List PromptVal :=
      [.l c.caps.routeName, .l sh, .l c.caps.endPoints, .l se]
    let backend := c.w.agentOut.getD "No backend endpoint action performed."
    let formatted := format_response backend
    (match c.req.suggested_files with
     | none => { error := some .typeError, invokedAgent := true, promptVals }
     | some files =>
       let target :=
         match files.find? (fun f => strEndsWith f ".py") with
         | some f => f
         | none => "app.py"
       { response := some { step := 2, message := "Backend endpoints generated",
                            output := .str formatted }
         persisted := [(target, formatted)]
         sessionAfter := some { step := 3, suggested_files := c.req.suggested_files,
                                backend_endpoint_response := some backend }
         invokedAgent := true
         promptVals })
  | _, _ => { error := some .unboundLocal }

/-- The persist loop of step 3 (lines 436-450): enumerate(suggested_files)
indexes suggested_file_paths, so a None path list raises TypeError on the
first iteration and a too-short path list raises IndexError, keeping the
writes made before the failing iteration. -/
def persistLoop3 (files : List String) (pathsOpt : Option (List String))
    (content : String) (i : Nat) : List (String × String) × Option PyErr :=
  match files with
  | [] => ([], none)
  | f :: fs =>
    match pathsOpt with
    | none => ([], some .typeError)
    | some paths =>
      match paths.get? i with
      | none => ([], some .indexError)
      | some _ =>
        let r := persistLoop3 fs pathsOpt content (i + 1)
        ((f, content) :: r.1, r.2)

/-- Lines 382-465, step 3: UI elements. The prompt interpolates, in order,
sanitized_capabilities_requestBody, the raw capabilities_requestGuidance,
sanitized_capabilities_responseBody and
sanitized_capabilities_responseGuidance. -/
def stage3 (c : Ctx) : RunOutcome :=
  let frontend_function_response := c.session.frontend_function_response.getD ""
  let sanitised_frontend_function_response := sanitize frontend_function_response
  let sanitized_backend_endpoint_response :=
    c.session.sanitized_backend_endpoint_response.getD ""
  match c.caps.s_requestBody, c.caps.s_responseBody, c.caps.s_responseGuidance with
  | some srb, some sresb, some sresg =>
    let promptVals : List PromptVal :=
      [.l srb, .l c.caps.requestGuidance, .l sresb, .l sresg]
    let ui := c.w.agentOut.getD "No UI update action performed."
    let formatted := format_response ui
    (match c.req.suggested_files with
     | none => { error := some .typeError, invokedAgent := true, promptVals }
     | some files =>
       let r := persistLoop3 files c.req.suggested_file_paths formatted 0
       (match r.2 with
        | some e => { error := some e, persisted := r.1, invokedAgent := true, promptVals }
        | none =>
          { response := some { step := 3, message := "UI components created or updated",
                               output := .str formatted }
            persisted := r.1
            sessionAfter := some { step := 4, suggested_files := c.req.suggested_files,
                                   ui_response := some ui,
                                   sanitized_backend_endpoint_response :=
                                     some sanitized_backend_endpoint_response,
                                   sanitised_frontend_function_response :=
                                     some sanitised_frontend_function_response }
            invokedAgent := true
            promptVals }))
  | _, _, _ => { error := some .unboundLocal }

/-- Lines 467-547, step 4: frontend request handler. Every suggested file is
updated with the formatted response; the session advances to step 9. -/
def stage4 (c : Ctx) : RunOutcome :=
  let backend := c.session.backend_endpoint_response.getD ""
  let ui := c.session.ui_response.getD ""
  let sanitized_backend := sanitize backend
  let sanitized_ui := sanitize ui
  match c.caps.s_requestBody, c.caps.s_responseBody, c.caps.s_responseGuidance,
        c.caps.s_errorBody with
  | some srb, some sresb, some sresg, some _ =>
    let promptVals : List PromptVal :=
      [.s sanitized_backend, .s sanitized_ui, .l srb, .l c.caps.requestGuidance,
       .l sresb, .l sresg, .l c.caps.routeName]
    let ffr := c.w.agentOut.getD "No action performed."
    let formatted := format_response ffr
    (match c.req.suggested_files with
     | none => { error := some .typeError, invokedAgent := true, promptVals }
     | some files =>
       { response := some { step := 4, message := "Refactoring performed on suggested files",
                            output := .str (format_response ffr) }
         persisted := files.map (fun f => (f, formatted))
         sessionAfter := some { step := 9, suggested_files := c.req.suggested_files,
                                frontend_function_response := some ffr,
                                sanitized_backend_endpoint_response := some sanitized_backend }
         invokedAgent := true
         promptVals })
  | _, _, _, _ => { error := some .unboundLocal }

/-- Lines 549-625, step 5: integration tests. The raw agent output is stored
as integration_tests.py; only the returned body is formatted. -/
def stage5 (c : Ctx) : RunOutcome :=
  let sbe := c.session.sanitized_backend_endpoint_response.getD ""
  let sfn := c.session.sanitised_frontend_function_response.getD ""
  let sdr := c.session.sanitized_docReview_response.getD ""
  let itr := c.w.agentOut.getD "No integration tests action performed."
  { response := some { step := 5, message := "Integration tests created",
                       output := .str (format_response itr) }
    persisted := [("integration_tests.py", itr)]
    sessionAfter := some { step := 8, integration_tests_result := some itr,
                           sanitized_backend_endpoint_response := some sbe,
                           sanitized_docReview_response := some sdr }
    invokedAgent := true
    promptVals := [.s sfn, .s sbe, .s c.req.docslink] }

/-- Steps 6 and 7 bind frontend_generated_code only inside the loop over
suggested_files, at the first ".js" file; a falsy suggested_files or the
absence of any ".js" file leaves the local unbound, raising
UnboundLocalError at the .replace call. Returns the matched file name and
the code read back from the store (with the existence fallback string). -/
def findJsCode (c : Ctx) : Option (String × String) :=
  match c.req.suggested_files with
  | some files =>
    (match files.find? (fun f => strEndsWith f ".js") with
     | some f =>
       some (f, (c.w.docGet f).getD "No code found in the document for the \x27.js\x27 file.")
     | none => none)
  | none => none

/-- Lines 627-707, step 6: code review. The raw review is written back to the
".js" document only when it differs from the sentinel; the session is
replaced by \x7b"step": 7\x7d regardless. -/
def stage6 (c : Ctx) : RunOutcome :=
  match findJsCode c with
  | none => { error := some .unboundLocal }
  | some (jsFile, code) =>
    let sanitised_fg := sanitize code
    (match c.caps.s_errorBody with
     | none => { error := some .unboundLocal }
     | some se =>
       let crr := c.w.agentOut.getD "No impact analysis action performed."
       { response := some { step := 6, message := "Code review completed",
                            output := .str (format_response crr) }
         persisted :=
           if crr = "No impact analysis action performed." then [] else [(jsFile, crr)]
         sessionAfter := some { step := 7 }
         invokedAgent := true
         promptVals := [.s sanitised_fg, .l se] })

/-- Lines 709-780, step 7: styling. Same shape as step 6, but the prompt uses
the sanitised concatenated github file contents and reads no capability
local. -/
def stage7 (c : Ctx) : RunOutcome :=
  match findJsCode c with
  | none => { error := some .unboundLocal }
  | some (jsFile, code) =>
    let sanitised_fg := sanitize code
    let sr := c.w.agentOut.getD "No impact analysis action performed."
    { response := some { step := 7, message := "Code review completed",
                         output := .str (format_response sr) }
      persisted :=
        if sr = "No impact analysis action performed." then [] else [(jsFile, sr)]
      sessionAfter := some { step := 8 }
      invokedAgent := true
      promptVals := [.s sanitised_fg, .s c.sanitisedGithub] }

/-- Lines 782-860, step 8: documentation. The document name embeds the first
endpoint with "/" replaced by "_" when any endpoint was collected, then ":"
and "?" replaced by "_"; the raw documentation text is persisted. -/
def stage8 (c : Ctx) : RunOutcome :=
  let sbe := c.session.sanitized_backend_endpoint_response.getD ""
  let sfg := c.session.sanitised_frontend_generated_code.getD ""
  let docres := c.w.agentOut.getD "No documentation action performed."
  let baseName :=
    match c.caps.endPoints with
    | [] => "TechnicalDocumentation.txt"
    | e :: _ => "TechnicalDocumentation_" ++ String.mk (replChar '/' '_' e.data) ++ ".txt"
  let docName := String.mk (replChar '?' '_' (replChar ':' '_' baseName.data))
  { response := some { step := 8, message := "Documentation sent",
                       output := .str (format_response docres) }
    persisted := [(docName, docres)]
    sessionAfter := some { step := 9 }
    invokedAgent := true
    promptVals := [.s sbe, .s sfg, .s c.req.docslink] }

/-- Lines 862-909, step 9: API key steps. No document is persisted, no
format_response is applied, and the output is the raw agent text split on
newlines. -/
def stage9 (c : Ctx) : RunOutcome :=
  let akr := c.w.agentOut.getD "No backend endpoint action performed."
  { response := some { step := 9, message := "API Key info sent",
                       output := .list (pySplitNl akr) }
    sessionAfter := some { step := 10 }
    invokedAgent := true
    promptVals := [.s c.req.docslink, .s c.req.docslink] }

/-- The POST /agent/invoke handler (lines 150-909): look up the session with
default step 2, fan the file fetches out over suggested_file_urls (a None
list raises TypeError at the gather), concatenate with the fixed separator
and escape braces, build the capability accumulators, then dispatch on the
stored step; a step matching no branch falls off the function and returns
None with no effects. -/
def agent_invoke (store : SessionStore) (w : World) (req : AgentInvokeRequest) : RunOutcome :=
  let session_data := sessionGet store req.session_id
  match req.suggested_file_urls with
  | none => { error := some .typeError }
  | some urls =>
    let contents := urls.map w.fileFetch
    let sanitisedGithub := sanitize (joinWith "\n\n---\n\n" contents)
    let caps := buildCaps w.capFetch req.capabilityRefs
    let c : Ctx := { req, w, session := session_data, caps, sanitisedGithub }
    if session_data.step = 1 then stage1 c
    else if session_data.step = 2 then stage2 c
    else if session_data.step = 3 then stage3 c
    else if session_data.step = 4 then stage4 c
    else if session_data.step = 5 then stage5 c
    else if session_data.step = 6 then stage6 c
    else if session_data.step = 7 then stage7 c
    else if session_data.step = 8 then stage8 c
    else if session_data.step = 9 then stage9 c
    else {}

/-- Fixture: the session store before any request was handled. -/
def emptyStore : SessionStore := fun _ => none

/-- Fixture: a store whose every session sits at the given step with no
accumulated artifacts. -/
def storeAt (n : Nat) : SessionStore := fun _ => some { step := n }

/-- Fixture: a capability document carrying every field; its free-text
request guidance contains a literal opening brace. -/
def capDocFull : CapDoc :=
  { name := some "n", endPoint := some "u", headers := some "h", routeName := some "r",
    errorBody := some "e", requestBody := some "x", responseBody := some "y",
    responseGuidance := some "z", requestGuidance := some "\x7b" }

/-- Fixture: a world whose collaborators all answer, with the given agent
output. -/
def worldWith (out : Option String) : World :=
  { fileFetch := fun _ => "F", capFetch := fun _ => some capDocFull,
    docGet := fun _ => some "JS", agentOut := out }

/-- Fixture: a request carrying every optional field, with one ".py" and one
".js" suggested file. -/
def reqFull : AgentInvokeRequest :=
  { session_id := "s1", docslink := "d1", repo := "r1", project := "p1",
    suggested_files := some ["a.py", "b.js"],
    suggested_file_urls := some ["u1"],
    suggested_file_paths := some ["p1", "p2"],
    capabilityRefs := some ["c1"] }

/-- Fixture: a stage context over the full request and world at the given
session step. -/
def ctxAt (n : Nat) (out : String) : Ctx :=
  { req := reqFull, w := worldWith (some out), session := { step := n },
    caps := buildCaps (fun _ => some capDocFull) (some ["c1"]), sanitisedGithub := "G" }

/-- A list not starting with a backtick starts no fence. -/
theorem startsTicks_of_ne (c : Char) (l : List Char) (h : c ≠ '\x60') :
    startsTicks (c :: l) = false := by
  rw [startsTicks.eq_def]
  split <;> simp_all

set_option maxHeartbeats 2000000 in
/-- The regex pass keeps a character that starts no fence and moves on. -/
theorem subFence_cons_nt (c : Char) (l : List Char)
    (h : startsTicks (c :: l) = false) : subFence (c :: l) = c :: subFence l := by
  rw [subFence.eq_def]
  split <;> simp_all [startsTicks]

set_option maxHeartbeats 1000000 in
/-- The replace pass keeps a character that starts no fence and moves on. -/
theorem stripTicks_cons_nt (c : Char) (l : List Char)
    (h : startsTicks (c :: l) = false) : stripTicks (c :: l) = c :: stripTicks l := by
  rw [stripTicks.eq_def]
  split <;> simp_all [startsTicks]

/-- The regex pass is the identity on fence-free text. -/
theorem subFence_of_clean : ∀ l, hasTicks l = false → subFence l = l := by
  intro l
  induction l with
  | nil => intro _; rfl
  | cons c rest ih =>
    intro h
    rw [hasTicks] at h
    simp only [Bool.or_eq_false_iff] at h
    rw [subFence_cons_nt c rest h.1, ih h.2]

/-- The replace pass is the identity on fence-free text. -/
theorem stripTicks_of_clean : ∀ l, hasTicks l = false → stripTicks l = l := by
  intro l
  induction l with
  | nil => intro _; rfl
  | cons c rest ih =>
    intro h
    rw [hasTicks] at h
    simp only [Bool.or_eq_false_iff] at h
    rw [stripTicks_cons_nt c rest h.1, ih h.2]

/-- The regex pass passes over a backtick-free segment unchanged. -/
theorem subFence_append_nb : ∀ (xs ys : List Char), (∀ ch ∈ xs, ch ≠ '\x60') →
    subFence (xs ++ ys) = xs ++ subFence ys := by
  intro xs
  induction xs with
  | nil => intro ys _; rfl
  | cons c rest ih =>
    intro ys h
    have hc : c ≠ '\x60' := h c (by simp)
    rw [List.cons_append, subFence_cons_nt _ _ (startsTicks_of_ne _ _ hc),
      ih ys (fun ch hm => h ch (by simp [hm])), List.cons_append]

/-- The replace pass passes over a backtick-free segment unchanged. -/
theorem stripTicks_append_nb : ∀ (xs ys : List Char), (∀ ch ∈ xs, ch ≠ '\x60') →
    stripTicks (xs ++ ys) = xs ++ stripTicks ys := by
  intro xs
  induction xs with
  | nil => intro ys _; rfl
  | cons c rest ih =>
    intro ys h
    have hc : c ≠ '\x60' := h c (by simp)
    rw [List.cons_append, stripTicks_cons_nt _ _ (startsTicks_of_ne _ _ hc),
      ih ys (fun ch hm => h ch (by simp [hm])), List.cons_append]

/-- A python fence opening with newline is removed by the regex pass. -/
theorem subFence_pyNl (rest : List Char) :
    subFence ("```python\n".data ++ rest) = subFence rest := rfl

/-- A jsx fence opening with newline is removed by the regex pass. -/
theorem subFence_jsxNl (rest : List Char) :
    subFence ("```jsx\n".data ++ rest) = subFence rest := rfl

/-- A ruby-tagged fence opening is not recognised by the regex pass. -/
theorem subFence_rubyNl (rest : List Char) :
    subFence ("```ruby\n".data ++ rest) = "```ruby\n".data ++ subFence rest := rfl

/-- A bare closing fence is not touched by the regex pass. -/
theorem subFence_ticks_nil : subFence "```".data = "```".data := rfl

/-- The replace pass removes a leading triple backtick. -/
theorem stripTicks_ticks (rest : List Char) :
    stripTicks ("```".data ++ rest) = stripTicks rest := rfl

/-- The replace pass erases a lone triple backtick. -/
theorem stripTicks_ticks_nil : stripTicks "```".data = [] := rfl

/-- Rebuilding a string from its character data is the identity. -/
theorem mk_data (s : String) : String.mk s.data = s := by cases s; rfl

/-- Strings with equal character data are equal. -/
theorem string_eq_of_data (a b : String) (h : a.data = b.data) : a = b := by
  cases a; cases b; exact congrArg String.mk h

/-- Folding the capability loop appends, for any field, one extracted entry
per present document in input order, skipping missing documents. -/
theorem capFold_field (F : CapAcc → List String) (g : CapDoc → String)
    (hF : ∀ acc d, F (capStep acc (some d)) = F acc ++ [g d]) :
    ∀ (ds : List (Option CapDoc)) (acc : CapAcc),
      F (ds.foldl capStep acc) = F acc ++ (ds.filterMap id).map g := by
  intro ds
  induction ds with
  | nil => intro acc; simp
  | cons d ds ih =>
    intro acc
    cases d with
    | none => simpa using ih acc
    | some v => simp [List.foldl_cons, hF, ih, List.append_assoc]

/-- Surviving entries plus skipped entries account for every input. -/
theorem length_filterMap_id_add (ds : List (Option CapDoc)) :
    (ds.filterMap id).length + ds.countP (fun d => d.isNone) = ds.length := by
  induction ds with
  | nil => rfl
  | cons d ds ih =>
    cases d with
    | none => simp [List.countP_cons, ih.symm]; omega
    | some v => simp [List.countP_cons, ih.symm]; omega

/-- Through the capability fold, each sanitized local is either still unbound
or holds exactly the brace-escaped image of its raw list. -/
theorem capFold_invariant (ds : List (Option CapDoc)) :
    ∀ (acc : CapAcc),
      (acc.s_errorBody = none ∨ acc.s_errorBody = some (acc.errorBody.map sanitize)) →
      (acc.s_headers = none ∨ acc.s_headers = some (acc.headers.map sanitize)) →
      (acc.s_requestBody = none ∨ acc.s_requestBody = some (acc.requestBody.map sanitize)) →
      (acc.s_responseBody = none ∨ acc.s_responseBody = some (acc.responseBody.map sanitize)) →
      (acc.s_responseGuidance = none ∨
        acc.s_responseGuidance = some (acc.responseGuidance.map sanitize)) →
      (((ds.foldl capStep acc).s_errorBody = none ∨
        (ds.foldl capStep acc).s_errorBody = some ((ds.foldl capStep acc).errorBody.map sanitize)) ∧
       ((ds.foldl capStep acc).s_headers = none ∨
        (ds.foldl capStep acc).s_headers = some ((ds.foldl capStep acc).headers.map sanitize)) ∧
       ((ds.foldl capStep acc).s_requestBody = none ∨
        (ds.foldl capStep acc).s_requestBody =
          some ((ds.foldl capStep acc).requestBody.map sanitize)) ∧
       ((ds.foldl capStep acc).s_responseBody = none ∨
        (ds.foldl capStep acc).s_responseBody =
          some ((ds.foldl capStep acc).responseBody.map sanitize)) ∧
       ((ds.foldl capStep acc).s_responseGuidance = none ∨
        (ds.foldl capStep acc).s_responseGuidance =
          some ((ds.foldl capStep acc).responseGuidance.map sanitize))) := by
  induction ds with
  | nil => intro acc h1 h2 h3 h4 h5; exact ⟨h1, h2, h3, h4, h5⟩
  | cons d ds ih =>
    intro acc h1 h2 h3 h4 h5
    cases d with
    | none => exact ih acc h1 h2 h3 h4 h5
    | some v => exact ih _ (Or.inr rfl) (Or.inr rfl) (Or.inr rfl) (Or.inr rfl) (Or.inr rfl)

/-- Folding over only missing documents leaves the accumulators untouched. -/
theorem foldl_capStep_none : ∀ (ds : List (Option CapDoc)), (∀ d ∈ ds, d = none) →
    ∀ acc, ds.foldl capStep acc = acc := by
  intro ds
  induction ds with
  | nil => intro _ acc; rfl
  | cons d ds ih =>
    intro h acc
    have hd : d = none := h d (by simp)
    rw [hd]
    exact ih (fun x hx => h x (by simp [hx])) acc

/-- A missing, empty, or all-missing capability reference list leaves every
capability accumulator at its initial value, the sanitized locals unbound. -/
theorem buildCaps_unbound (f : String → Option CapDoc) (refs : Option (List String))
    (h : refs = none ∨ refs = some [] ∨ (∃ ps, refs = some ps ∧ ∀ p ∈ ps, f p = none)) :
    buildCaps f refs = {} := by
  rcases h with h | h | ⟨ps, hps, hall⟩
  · rw [h]; rfl
  · rw [h]; rfl
  · rw [hps]
    unfold buildCaps
    dsimp only
    split
    · rfl
    · exact foldl_capStep_none (ps.map f)
        (fun d hd => by
          obtain ⟨p, hp, rfl⟩ := List.mem_map.mp hd
          exact hall p hp) {}

/-- Whatever the capability references resolve to, each sanitized local is
unbound or holds the brace-escaped image of its raw parallel list. -/
theorem buildCaps_invariant (f : String → Option CapDoc) (refs : Option (List String)) :
    (let a := buildCaps f refs
     (a.s_errorBody = none ∨ a.s_errorBody = some (a.errorBody.map sanitize)) ∧
     (a.s_headers = none ∨ a.s_headers = some (a.headers.map sanitize)) ∧
     (a.s_requestBody = none ∨ a.s_requestBody = some (a.requestBody.map sanitize)) ∧
     (a.s_responseBody = none ∨ a.s_responseBody = some (a.responseBody.map sanitize)) ∧
     (a.s_responseGuidance = none ∨
       a.s_responseGuidance = some (a.responseGuidance.map sanitize))) := by
  cases refs with
  | none => exact ⟨Or.inl rfl, Or.inl rfl, Or.inl rfl, Or.inl rfl, Or.inl rfl⟩
  | some rs =>
    unfold buildCaps
    dsimp only
    split
    · exact ⟨Or.inl rfl, Or.inl rfl, Or.inl rfl, Or.inl rfl, Or.inl rfl⟩
    · exact capFold_invariant (rs.map f) {} (Or.inl rfl) (Or.inl rfl) (Or.inl rfl)
        (Or.inl rfl) (Or.inl rfl)

/-- With a path list long enough, the step-3 persist loop writes every
suggested file with the given content and raises nothing. -/
theorem persistLoop3_ok (content : String) :
    ∀ (files paths : List String) (i : Nat), i + files.length ≤ paths.length →
      persistLoop3 files (some paths) content i = (files.map (fun f => (f, content)), none) := by
  intro files
  induction files with
  | nil => intro paths i _; rfl
  | cons f fs ih =>
    intro paths i h
    unfold persistLoop3
    dsimp only
    match hp : paths.get? i with
    | none =>
      have := List.get?_eq_none.mp hp
      simp at h
      omega
    | some x =>
      dsimp only
      rw [ih paths (i + 1) (by simp at h ⊢; omega)]
      rfl

/-- Any body stage 1 returns carries step 1 and a single-string output. -/
theorem stage1_resp (c : Ctx) (resp : StageResponse) (h : (stage1 c).response = some resp) :
    resp.step = 1 ∧ ∃ s, resp.output = .str s := by
  unfold stage1 at h
  dsimp only at h
  simp at h
  subst h
  exact ⟨rfl, ⟨_, rfl⟩⟩

/-- Any body stage 2 returns carries step 2 and a single-string output. -/
theorem stage2_resp (c : Ctx) (resp : StageResponse) (h : (stage2 c).response = some resp) :
    resp.step = 2 ∧ ∃ s, resp.output = .str s := by
  unfold stage2 at h
  dsimp only at h
  repeat' split at h
  all_goals simp at h
  all_goals (subst h; exact ⟨rfl, ⟨_, rfl⟩⟩)

/-- Any body stage 3 returns carries step 3 and a single-string output. -/
theorem stage3_resp (c : Ctx) (resp : StageResponse) (h : (stage3 c).response = some resp) :
    resp.step = 3 ∧ ∃ s, resp.output = .str s := by
  unfold stage3 at h
  dsimp only at h
  repeat' split at h
  all_goals simp at h
  all_goals (subst h; exact ⟨rfl, ⟨_, rfl⟩⟩)

/-- Any body stage 4 returns carries step 4 and a single-string output. -/
theorem stage4_resp (c : Ctx) (resp : StageResponse) (h : (stage4 c).response = some resp) :
    resp.step = 4 ∧ ∃ s, resp.output = .str s := by
  unfold stage4 at h
  dsimp only at h
  repeat' split at h
  all_goals simp at h
  all_goals (subst h; exact ⟨rfl, ⟨_, rfl⟩⟩)

/-- Any body stage 5 returns carries step 5 and a single-string output. -/
theorem stage5_resp (c : Ctx) (resp : StageResponse) (h : (stage5 c).response = some resp) :
    resp.step = 5 ∧ ∃ s, resp.output = .str s := by
  unfold stage5 at h
  dsimp only at h
  simp at h
  subst h
  exact ⟨rfl, ⟨_, rfl⟩⟩

/-- Any body stage 6 returns carries step 6 and a single-string output. -/
theorem stage6_resp (c : Ctx) (resp : StageResponse) (h : (stage6 c).response = some resp) :
    resp.step = 6 ∧ ∃ s, resp.output = .str s := by
  unfold stage6 at h
  dsimp only at h
  repeat' split at h
  all_goals simp at h
  all_goals (subst h; exact ⟨rfl, ⟨_, rfl⟩⟩)

/-- Any body stage 7 returns carries step 7 and a single-string output. -/
theorem stage7_resp (c : Ctx) (resp : StageResponse) (h : (stage7 c).response = some resp) :
    resp.step = 7 ∧ ∃ s, resp.output = .str s := by
  unfold stage7 at h
  dsimp only at h
  repeat' split at h
  all_goals simp at h
  all_goals (subst h; exact ⟨rfl, ⟨_, rfl⟩⟩)

/-- Any body stage 8 returns carries step 8 and a single-string output. -/
theorem stage8_resp (c : Ctx) (resp : StageResponse) (h : (stage8 c).response = some resp) :
    resp.step = 8 ∧ ∃ s, resp.output = .str s := by
  unfold stage8 at h
  dsimp only at h
  simp at h
  subst h
  exact ⟨rfl, ⟨_, rfl⟩⟩

/-- Any body stage 9 returns carries step 9 and the raw agent output split on
newlines as a list of strings. -/
theorem stage9_resp (c : Ctx) (resp : StageResponse) (h : (stage9 c).response = some resp) :
    resp.step = 9 ∧
      resp.output = .list (pySplitNl (c.w.agentOut.getD "No backend endpoint action performed.")) := by
  unfold stage9 at h
  dsimp only at h
  simp at h
  subst h
  exact ⟨rfl, rfl⟩

/-- A response at a step other than 9 with a single-string output satisfies
the output-shape dichotomy vacuously on the list side. -/
theorem nonlist_conclusion (resp : StageResponse) (k : Nat) (out : List String) (hk : k ≠ 9)
    (h1 : resp.step = k) (s : String) (h2 : resp.output = .str s) :
    ((∃ l, resp.output = .list l) ↔ resp.step = 9) ∧
    (resp.step = 9 → resp.output = .list out) := by
  constructor
  · constructor
    · rintro ⟨l, hl⟩
      rw [h2] at hl
      simp at hl
    · intro h9
      rw [h1] at h9
      exact absurd h9 hk
  · intro h9
    rw [h1] at h9
    exact absurd h9 hk

/-- Whenever the three sanitized locals used by step 3 are bound, the step-3
prompt interpolates them together with the raw request guidance list,
whichever way the stage then terminates. -/
theorem stage3_promptVals (c : Ctx) (srb sresb sresg : List String)
    (h3 : c.caps.s_requestBody = some srb) (h4 : c.caps.s_responseBody = some sresb)
    (h5 : c.caps.s_responseGuidance = some sresg) :
    (stage3 c).promptVals = [.l srb, .l c.caps.requestGuidance, .l sresb, .l sresg] := by
  unfold stage3
  rw [h3, h4, h5]
  dsimp only
  repeat' split
  all_goals rfl

/-- C1: for every session identifier with no entry in the session store, the
session-store lookup returns the default state with stage 2 and no artifacts,
never stage 1, and the first handled request is dispatched to the stage-2
branch. -/
theorem C1_default_session_stage2 (store : SessionStore) (w : World)
    (req : AgentInvokeRequest) (urls : List String)
    (h : store req.session_id = none)
    (hu : req.suggested_file_urls = some urls) :
    sessionGet store req.session_id = { step := 2 } ∧
    (sessionGet store req.session_id).step ≠ 1 ∧
    agent_invoke store w req =
      stage2 { req := req, w := w, session := sessionGet store req.session_id,
               caps := buildCaps w.capFetch req.capabilityRefs,
               sanitisedGithub := sanitize (joinWith "\n\n---\n\n" (urls.map w.fileFetch)) } := by
  have hget : sessionGet store req.session_id = { step := 2 } := by
    unfold sessionGet
    rw [h]
    rfl
  refine ⟨hget, by rw [hget]; decide, ?_⟩
  unfold agent_invoke
  rw [hu]
  dsimp only
  rw [hget]
  norm_num

/-- C1 witness: a never-seen session id in the empty store defaults to stage
2 and dispatches to the stage-2 branch. -/
theorem C1_default_session_stage2_witness :
    sessionGet emptyStore reqFull.session_id = { step := 2 } ∧
    (sessionGet emptyStore reqFull.session_id).step ≠ 1 ∧
    agent_invoke emptyStore (worldWith (some "OUT")) reqFull =
      stage2 { req := reqFull, w := worldWith (some "OUT"),
               session := sessionGet emptyStore reqFull.session_id,
               caps := buildCaps (worldWith (some "OUT")).capFetch reqFull.capabilityRefs,
               sanitisedGithub :=
                 sanitize (joinWith "\n\n---\n\n"
                   (["u1"].map (worldWith (some "OUT")).fileFetch)) } :=
  C1_default_session_stage2 emptyStore (worldWith (some "OUT")) reqFull ["u1"] rfl rfl

/-- C2: whenever a stage branch replaces the stored session, the stored stage
number is the fixed successor from the table: 1 to 2, 2 to 3, 3 to 4, 4 to 9,
5 to 8, 6 to 7, 7 to 8, 8 to 9, and 9 to 10; in particular stage 4 hands off
to 9 and stage 5 hands off to 8. -/
theorem C2_stage_successor (c : Ctx) :
    ((stage1 c).sessionAfter.map SessionState.step = some 2) ∧
    ((stage2 c).sessionAfter.map SessionState.step = some 3 ∨ (stage2 c).sessionAfter = none) ∧
    ((stage3 c).sessionAfter.map SessionState.step = some 4 ∨ (stage3 c).sessionAfter = none) ∧
    ((stage4 c).sessionAfter.map SessionState.step = some 9 ∨ (stage4 c).sessionAfter = none) ∧
    ((stage5 c).sessionAfter.map SessionState.step = some 8) ∧
    ((stage6 c).sessionAfter.map SessionState.step = some 7 ∨ (stage6 c).sessionAfter = none) ∧
    ((stage7 c).sessionAfter.map SessionState.step = some 8 ∨ (stage7 c).sessionAfter = none) ∧
    ((stage8 c).sessionAfter.map SessionState.step = some 9) ∧
    ((stage9 c).sessionAfter.map SessionState.step = some 10) := by
  refine ⟨rfl, ?_, ?_, ?_, rfl, ?_, ?_, rfl, rfl⟩ <;>
    (first
      | (unfold stage2; dsimp only; repeat' split)
      | (unfold stage3; dsimp only; repeat' split)
      | (unfold stage4; dsimp only; repeat' split)
      | (unfold stage6; dsimp only; repeat' split)
      | (unfold stage7; dsimp only; repeat' split)) <;>
    first | (left; rfl) | (right; rfl)

/-- C6: a returned body has a list-of-strings output exactly when the
dispatched stage is 9, and at stage 9 the list is the agent output split on
newline characters; every other stage returns a single string. -/
theorem C6_output_list_iff_step9 (store : SessionStore) (w : World)
    (req : AgentInvokeRequest) (resp : StageResponse)
    (h : (agent_invoke store w req).response = some resp) :
    ((∃ l, resp.output = .list l) ↔ resp.step = 9) ∧
    (resp.step = 9 →
      resp.output = .list (pySplitNl (w.agentOut.getD "No backend endpoint action performed."))) := by
  unfold agent_invoke at h
  split at h
  · simp at h
  · dsimp only at h
    repeat' split at h
    · obtain ⟨h1, s, h2⟩ := stage1_resp _ _ h
      exact nonlist_conclusion resp 1 _ (by decide) h1 s h2
    · obtain ⟨h1, s, h2⟩ := stage2_resp _ _ h
      exact nonlist_conclusion resp 2 _ (by decide) h1 s h2
    · obtain ⟨h1, s, h2⟩ := stage3_resp _ _ h
      exact nonlist_conclusion resp 3 _ (by decide) h1 s h2
    · obtain ⟨h1, s, h2⟩ := stage4_resp _ _ h
      exact nonlist_conclusion resp 4 _ (by decide) h1 s h2
    · obtain ⟨h1, s, h2⟩ := stage5_resp _ _ h
      exact nonlist_conclusion resp 5 _ (by decide) h1 s h2
    · obtain ⟨h1, s, h2⟩ := stage6_resp _ _ h
      exact nonlist_conclusion resp 6 _ (by decide) h1 s h2
    · obtain ⟨h1, s, h2⟩ := stage7_resp _ _ h
      exact nonlist_conclusion resp 7 _ (by decide) h1 s h2
    · obtain ⟨h1, s, h2⟩ := stage8_resp _ _ h
      exact nonlist_conclusion resp 8 _ (by decide) h1 s h2
    · obtain ⟨h1, h2⟩ := stage9_resp _ _ h
      exact ⟨⟨fun _ => h1, fun _ => ⟨_, h2⟩⟩, fun _ => h2⟩
    · simp at h

/-- C6 witness: at stage 9 with agent output of two newline-separated steps,
the returned output is the two-element ordered list. -/
theorem C6_output_list_iff_step9_witness :
    (agent_invoke (storeAt 9) (worldWith (some "Step 1: a\nStep 2: b")) reqFull).response =
      some { step := 9, message := "API Key info sent",
             output := .list ["Step 1: a", "Step 2: b"] } ∧
    (((∃ l, (RespOutput.list ["Step 1: a", "Step 2: b"]) = .list l) ↔ (9 : Nat) = 9) ∧
     ((9 : Nat) = 9 →
       (RespOutput.list ["Step 1: a", "Step 2: b"]) =
         .list (pySplitNl ((worldWith (some "Step 1: a\nStep 2: b")).agentOut.getD
           "No backend endpoint action performed.")))) :=
  ⟨rfl, C6_output_list_iff_step9 (storeAt 9) (worldWith (some "Step 1: a\nStep 2: b")) reqFull
    { step := 9, message := "API Key info sent", output := .list ["Step 1: a", "Step 2: b"] } rfl⟩

/-- C7: when the capability reference paths resolve with exactly one missing
document, every parallel capability field sequence holds one entry per
surviving document, in input order, hence one fewer than the number of
paths; the missing record is skipped rather than failing the request. -/
theorem C7_missing_capability_order (capFetch : String → Option CapDoc) (paths : List String)
    (hne : paths ≠ [])
    (hone : (paths.map capFetch).countP (fun d => d.isNone) = 1) :
    (let docs := (paths.map capFetch).filterMap id
     let a := buildCaps capFetch (some paths)
     a.names = docs.map (fun d => d.name.getD "No name") ∧
     a.endPoints = docs.map (fun d => d.endPoint.getD "No endPoint") ∧
     a.headers = docs.map (fun d => d.headers.getD "No headers") ∧
     a.routeName = docs.map (fun d => d.routeName.getD "No routeName") ∧
     a.errorBody = docs.map (fun d => d.errorBody.getD "No errorBody") ∧
     a.requestBody = docs.map (fun d => d.requestBody.getD "No requestBody") ∧
     a.responseBody = docs.map (fun d => d.responseBody.getD "No responseBody") ∧
     a.responseGuidance = docs.map (fun d => d.responseGuidance.getD "No responseGuidance") ∧
     a.requestGuidance = docs.map (fun d => d.requestGuidance.getD "No requestGuidance") ∧
     a.names.length = paths.length - 1 ∧
     a.endPoints.length = paths.length - 1 ∧
     a.headers.length = paths.length - 1 ∧
     a.routeName.length = paths.length - 1 ∧
     a.errorBody.length = paths.length - 1 ∧
     a.requestBody.length = paths.length - 1 ∧
     a.responseBody.length = paths.length - 1 ∧
     a.responseGuidance.length = paths.length - 1 ∧
     a.requestGuidance.length = paths.length - 1) := by
  have he : paths.isEmpty = false := by
    cases paths with
    | nil => exact absurd rfl hne
    | cons p ps => rfl
  have hbc : buildCaps capFetch (some paths) = (paths.map capFetch).foldl capStep {} := by
    unfold buildCaps
    dsimp only
    rw [he]
    rfl
  have hlen : ((paths.map capFetch).filterMap id).length = paths.length - 1 := by
    have hadd := length_filterMap_id_add (paths.map capFetch)
    rw [hone] at hadd
    simp only [List.length_map] at hadd
    omega
  dsimp only
  rw [hbc]
  rw [capFold_field CapAcc.names (fun d => d.name.getD "No name") (fun _ _ => rfl),
    capFold_field CapAcc.endPoints (fun d => d.endPoint.getD "No endPoint") (fun _ _ => rfl),
    capFold_field CapAcc.headers (fun d => d.headers.getD "No headers") (fun _ _ => rfl),
    capFold_field CapAcc.routeName (fun d => d.routeName.getD "No routeName") (fun _ _ => rfl),
    capFold_field CapAcc.errorBody (fun d => d.errorBody.getD "No errorBody") (fun _ _ => rfl),
    capFold_field CapAcc.requestBody (fun d => d.requestBody.getD "No requestBody")
      (fun _ _ => rfl),
    capFold_field CapAcc.responseBody (fun d => d.responseBody.getD "No responseBody")
      (fun _ _ => rfl),
    capFold_field CapAcc.responseGuidance
      (fun d => d.responseGuidance.getD "No responseGuidance") (fun _ _ => rfl),
    capFold_field CapAcc.requestGuidance
      (fun d => d.requestGuidance.getD "No requestGuidance") (fun _ _ => rfl)]
  simp only [List.nil_append, List.length_map]
  exact ⟨trivial, trivial, trivial, trivial, trivial, trivial, trivial, trivial, trivial,
    hlen, hlen, hlen, hlen, hlen, hlen, hlen, hlen, hlen⟩

/-- C7 witness: three paths with exactly the middle document missing give
two-entry parallel sequences preserving the order of the survivors. -/
theorem C7_missing_capability_order_witness :
    ((["c1", "c2", "c3"] : List String) ≠ []) ∧
    ((["c1", "c2", "c3"].map
      (fun p => if p = "c2" then none else some capDocFull)).countP (fun d => d.isNone) = 1) ∧
    (let docs := (["c1", "c2", "c3"].map
       (fun p => if p = "c2" then none else some capDocFull)).filterMap id
     let a := buildCaps (fun p => if p = "c2" then none else some capDocFull)
       (some ["c1", "c2", "c3"])
     a.names = docs.map (fun d => d.name.getD "No name") ∧
     a.endPoints = docs.map (fun d => d.endPoint.getD "No endPoint") ∧
     a.headers = docs.map (fun d => d.headers.getD "No headers") ∧
     a.routeName = docs.map (fun d => d.routeName.getD "No routeName") ∧
     a.errorBody = docs.map (fun d => d.errorBody.getD "No errorBody") ∧
     a.requestBody = docs.map (fun d => d.requestBody.getD "No requestBody") ∧
     a.responseBody = docs.map (fun d => d.responseBody.getD "No responseBody") ∧
     a.responseGuidance = docs.map (fun d => d.responseGuidance.getD "No responseGuidance") ∧
     a.requestGuidance = docs.map (fun d => d.requestGuidance.getD "No requestGuidance") ∧
     a.names.length = 2 ∧ a.endPoints.length = 2 ∧ a.headers.length = 2 ∧
     a.routeName.length = 2 ∧ a.errorBody.length = 2 ∧ a.requestBody.length = 2 ∧
     a.responseBody.length = 2 ∧ a.responseGuidance.length = 2 ∧
     a.requestGuidance.length = 2) :=
  ⟨by decide, by decide,
    C7_missing_capability_order (fun p => if p = "c2" then none else some capDocFull)
      ["c1", "c2", "c3"] (by decide) (by decide)⟩

/-- C8: a stored session whose stage matches none of the nine handled stages
falls through every branch: the call raises nothing, returns no body,
persists nothing, writes no session update, and never invokes the agent; in
particular the state stage 9 stores, stage 10, has no handler. -/
theorem C8_unmatched_stage_falls_through (store : SessionStore) (w : World)
    (req : AgentInvokeRequest) (st : SessionState) (urls : List String) (c : Ctx)
    (hs : store req.session_id = some st)
    (hstep : ∀ k, 1 ≤ k → k ≤ 9 → st.step ≠ k)
    (hu : req.suggested_file_urls = some urls) :
    agent_invoke store w req = {} ∧
    (agent_invoke store w req).response = none ∧
    (stage9 c).sessionAfter = some { step := 10 } := by
  have hget : sessionGet store req.session_id = st := by
    unfold sessionGet
    rw [hs]
    rfl
  have main : agent_invoke store w req = {} := by
    unfold agent_invoke
    rw [hu]
    dsimp only
    rw [hget, if_neg (hstep 1 (by omega) (by omega)), if_neg (hstep 2 (by omega) (by omega)),
      if_neg (hstep 3 (by omega) (by omega)), if_neg (hstep 4 (by omega) (by omega)),
      if_neg (hstep 5 (by omega) (by omega)), if_neg (hstep 6 (by omega) (by omega)),
      if_neg (hstep 7 (by omega) (by omega)), if_neg (hstep 8 (by omega) (by omega)),
      if_neg (hstep 9 (by omega) (by omega))]
  exact ⟨main, by rw [main], rfl⟩

/-- C8 witness: a session stored at stage 10 produces no response at all. -/
theorem C8_unmatched_stage_falls_through_witness :
    agent_invoke (storeAt 10) (worldWith (some "OUT")) reqFull = {} ∧
    (agent_invoke (storeAt 10) (worldWith (some "OUT")) reqFull).response = none ∧
    (stage9 (ctxAt 9 "OUT")).sessionAfter = some { step := 10 } :=
  C8_unmatched_stage_falls_through (storeAt 10) (worldWith (some "OUT")) reqFull
    { step := 10 } ["u1"] (ctxAt 9 "OUT") rfl (by decide) rfl

/-- C9: a request dispatched to stage 2, including the default path for
never-seen sessions, whose capability reference list is absent, empty, or
resolves to no existing document, raises an unbound-local error while
building the stage-2 prompt: the agent is never invoked, nothing is
persisted, and the stored session is unchanged. -/
theorem C9_stage2_unbound_local (store : SessionStore) (w : World)
    (req : AgentInvokeRequest) (urls : List String)
    (hu : req.suggested_file_urls = some urls)
    (hstep : (sessionGet store req.session_id).step = 2)
    (hcap : req.capabilityRefs = none ∨ req.capabilityRefs = some [] ∨
            (∃ ps, req.capabilityRefs = some ps ∧ ∀ p ∈ ps, w.capFetch p = none)) :
    agent_invoke store w req = { error := some .unboundLocal } ∧
    (agent_invoke store w req).invokedAgent = false ∧
    (agent_invoke store w req).persisted = [] ∧
    (agent_invoke store w req).sessionAfter = none := by
  have hc : buildCaps w.capFetch req.capabilityRefs = {} := buildCaps_unbound _ _ hcap
  have main : agent_invoke store w req = { error := some .unboundLocal } := by
    unfold agent_invoke
    rw [hu]
    dsimp only
    rw [hc, hstep]
    norm_num
    rfl
  exact ⟨main, by rw [main], by rw [main], by rw [main]⟩

/-- C9 witness: a never-seen session with no capability references raises the
unbound-local error before any effect. -/
theorem C9_stage2_unbound_local_witness :
    agent_invoke emptyStore (worldWith (some "OUT"))
      { reqFull with capabilityRefs := none } = { error := some .unboundLocal } ∧
    (agent_invoke emptyStore (worldWith (some "OUT"))
      { reqFull with capabilityRefs := none }).invokedAgent = false ∧
    (agent_invoke emptyStore (worldWith (some "OUT"))
      { reqFull with capabilityRefs := none }).persisted = [] ∧
    (agent_invoke emptyStore (worldWith (some "OUT"))
      { reqFull with capabilityRefs := none }).sessionAfter = none :=
  C9_stage2_unbound_local emptyStore (worldWith (some "OUT"))
    { reqFull with capabilityRefs := none } ["u1"] rfl rfl (Or.inl rfl)

/-- C10: omitting the suggested-file-URLs field, whose schema default is
None, makes the handler raise a type error while fanning the file fetches
out over the missing list, before any stage is dispatched and regardless of
the stored session stage. -/
theorem C10_missing_urls_type_error (store : SessionStore) (w : World)
    (req : AgentInvokeRequest) (h : req.suggested_file_urls = none) :
    agent_invoke store w req = { error := some .typeError } ∧
    (agent_invoke store w req).response = none ∧
    (agent_invoke store w req).persisted = [] ∧
    (agent_invoke store w req).sessionAfter = none ∧
    (agent_invoke store w req).invokedAgent = false := by
  have main : agent_invoke store w req = { error := some .typeError } := by
    unfold agent_invoke
    rw [h]
  exact ⟨main, by rw [main], by rw [main], by rw [main], by rw [main]⟩

/-- C10 witness: the full request with its URL list removed raises the type
error whatever the stored stage. -/
theorem C10_missing_urls_type_error_witness :
    agent_invoke (storeAt 7) (worldWith (some "OUT"))
      { reqFull with suggested_file_urls := none } = { error := some .typeError } ∧
    (agent_invoke (storeAt 7) (worldWith (some "OUT"))
      { reqFull with suggested_file_urls := none }).response = none ∧
    (agent_invoke (storeAt 7) (worldWith (some "OUT"))
      { reqFull with suggested_file_urls := none }).persisted = [] ∧
    (agent_invoke (storeAt 7) (worldWith (some "OUT"))
      { reqFull with suggested_file_urls := none }).sessionAfter = none ∧
    (agent_invoke (storeAt 7) (worldWith (some "OUT"))
      { reqFull with suggested_file_urls := none }).invokedAgent = false :=
  C10_missing_urls_type_error (storeAt 7) (worldWith (some "OUT"))
    { reqFull with suggested_file_urls := none } rfl


/-- C3 counterexample: at stage 3 the request-guidance capability field is
interpolated into the prompt raw: a guidance value consisting of a single
opening brace reaches the prompt unescaped, while the claim requires the
brace-doubled form. -/
theorem C3_escaping_counterexample :
    (agent_invoke (storeAt 3) (worldWith (some "OUT")) reqFull).promptVals.get? 1 =
      some (.l ["\x7b"]) ∧
    sanitize "\x7b" = "\x7b\x7b" ∧
    (PromptVal.l ["\x7b"]) ≠ (PromptVal.l [sanitize "\x7b"]) :=
  ⟨rfl, rfl, by decide⟩

/-- C3 amended: brace escaping is applied to the concatenated fetched-file
contents and to the errorBody, headers, requestBody, responseBody and
responseGuidance capability fields, while the requestGuidance field (like
name, endPoint and routeName) flows into the stage-3 prompt unescaped. -/
theorem C3_escaping_amended (f : String → Option CapDoc) (refs : Option (List String))
    (c : Ctx) (srb sresb sresg : List String)
    (h3 : c.caps.s_requestBody = some srb) (h4 : c.caps.s_responseBody = some sresb)
    (h5 : c.caps.s_responseGuidance = some sresg)
    (store : SessionStore) (w : World) (req : AgentInvokeRequest) (urls : List String)
    (hu : req.suggested_file_urls = some urls)
    (hstep7 : (sessionGet store req.session_id).step = 7)
    (c7 : Ctx) (jsf code : String)
    (h9 : findJsCode c7 = some (jsf, code)) :
    (let a := buildCaps f refs
     (a.s_errorBody = none ∨ a.s_errorBody = some (a.errorBody.map sanitize)) ∧
     (a.s_headers = none ∨ a.s_headers = some (a.headers.map sanitize)) ∧
     (a.s_requestBody = none ∨ a.s_requestBody = some (a.requestBody.map sanitize)) ∧
     (a.s_responseBody = none ∨ a.s_responseBody = some (a.responseBody.map sanitize)) ∧
     (a.s_responseGuidance = none ∨
       a.s_responseGuidance = some (a.responseGuidance.map sanitize))) ∧
    (stage3 c).promptVals = [.l srb, .l c.caps.requestGuidance, .l sresb, .l sresg] ∧
    agent_invoke store w req =
      stage7 { req := req, w := w, session := sessionGet store req.session_id,
               caps := buildCaps w.capFetch req.capabilityRefs,
               sanitisedGithub :=
                 sanitize (joinWith "\n\n---\n\n" (urls.map w.fileFetch)) } ∧
    (stage7 c7).promptVals = [.s (sanitize code), .s c7.sanitisedGithub] := by
  refine ⟨buildCaps_invariant f refs, stage3_promptVals c srb sresb sresg h3 h4 h5, ?_, ?_⟩
  · unfold agent_invoke
    rw [hu]
    dsimp only
    rw [hstep7]
    norm_num
  · unfold stage7
    rw [h9]

/-- C3 witness: with a capability document whose free-text fields are bound,
the sanitized locals hold the escaped lists, the stage-3 prompt carries the
raw request guidance, and the stage-7 prompt carries the escaped github file
contents. -/
theorem C3_escaping_amended_witness :
    ((ctxAt 3 "OUT").caps.s_requestBody = some ["x"]) ∧
    (let a := buildCaps (fun _ => some capDocFull) (some ["c1"])
     (a.s_errorBody = none ∨ a.s_errorBody = some (a.errorBody.map sanitize)) ∧
     (a.s_headers = none ∨ a.s_headers = some (a.headers.map sanitize)) ∧
     (a.s_requestBody = none ∨ a.s_requestBody = some (a.requestBody.map sanitize)) ∧
     (a.s_responseBody = none ∨ a.s_responseBody = some (a.responseBody.map sanitize)) ∧
     (a.s_responseGuidance = none ∨
       a.s_responseGuidance = some (a.responseGuidance.map sanitize))) ∧
    (stage3 (ctxAt 3 "OUT")).promptVals =
      [.l ["x"], .l (ctxAt 3 "OUT").caps.requestGuidance, .l ["y"], .l ["z"]] ∧
    agent_invoke (storeAt 7) (worldWith (some "OUT")) reqFull =
      stage7 { req := reqFull, w := worldWith (some "OUT"),
               session := sessionGet (storeAt 7) reqFull.session_id,
               caps := buildCaps (worldWith (some "OUT")).capFetch reqFull.capabilityRefs,
               sanitisedGithub :=
                 sanitize (joinWith "\n\n---\n\n"
                   (["u1"].map (worldWith (some "OUT")).fileFetch)) } ∧
    (stage7 (ctxAt 7 "OUT")).promptVals =
      [.s (sanitize "JS"), .s (ctxAt 7 "OUT").sanitisedGithub] := by
  have H := C3_escaping_amended (fun _ => some capDocFull) (some ["c1"])
    (ctxAt 3 "OUT") ["x"] ["y"] ["z"] rfl rfl rfl
    (storeAt 7) (worldWith (some "OUT")) reqFull ["u1"] rfl rfl
    (ctxAt 7 "OUT") "b.js" "JS" rfl
  exact ⟨rfl, H.1, H.2.1, H.2.2.1, H.2.2.2⟩


/-- C4 counterexample: stage 5 persists the raw agent output, not the
fence-stripped text it returns: with a fenced agent output the stored
integration_tests.py content keeps its fences while the response is
stripped. -/
theorem C4_formatting_counterexample :
    (agent_invoke (storeAt 5) (worldWith (some "```python\nx```")) reqFull).persisted =
      [("integration_tests.py", "```python\nx```")] ∧
    (agent_invoke (storeAt 5) (worldWith (some "```python\nx```")) reqFull).response =
      some { step := 5, message := "Integration tests created", output := .str "x" } ∧
    format_response "```python\nx```" = "x" ∧
    ("```python\nx```" : String) ≠ "x" :=
  ⟨rfl, rfl, rfl, by decide⟩

/-- C4 amended: after extracting the agent output, stages 1 through 8 return
the fence-stripped text, but only stages 2, 3 and 4 persist the stripped
text; stages 1, 5, 6, 7 and 8 persist the raw output, and stage 9 applies no
stripping at all, persists nothing, and returns the raw output split on
newlines. -/
theorem C4_formatting_amended (c : Ctx) (out : String) (sh se srb sresb sresg : List String)
    (files paths : List String) (jsf code : String)
    (hW : c.w.agentOut = some out)
    (hout : out ≠ "No impact analysis action performed.")
    (h1 : c.caps.s_headers = some sh) (h2 : c.caps.s_errorBody = some se)
    (h3 : c.caps.s_requestBody = some srb) (h4 : c.caps.s_responseBody = some sresb)
    (h5 : c.caps.s_responseGuidance = some sresg)
    (h6 : c.req.suggested_files = some files)
    (h7 : c.req.suggested_file_paths = some paths)
    (h8 : files.length ≤ paths.length)
    (h9 : findJsCode c = some (jsf, code)) :
    ((stage1 c).persisted = [("integrationStrategy.txt", out)] ∧
     (stage1 c).response = some { step := 1, message := "Doc review generated",
                                  output := .str (format_response out) }) ∧
    ((stage2 c).persisted.map Prod.snd = [format_response out] ∧
     (stage2 c).response = some { step := 2, message := "Backend endpoints generated",
                                  output := .str (format_response out) }) ∧
    ((stage3 c).persisted = files.map (fun f => (f, format_response out)) ∧
     (stage3 c).response = some { step := 3, message := "UI components created or updated",
                                  output := .str (format_response out) }) ∧
    ((stage4 c).persisted = files.map (fun f => (f, format_response out)) ∧
     (stage4 c).response = some { step := 4,
                                  message := "Refactoring performed on suggested files",
                                  output := .str (format_response out) }) ∧
    ((stage5 c).persisted = [("integration_tests.py", out)] ∧
     (stage5 c).response = some { step := 5, message := "Integration tests created",
                                  output := .str (format_response out) }) ∧
    ((stage6 c).persisted = [(jsf, out)] ∧
     (stage6 c).response = some { step := 6, message := "Code review completed",
                                  output := .str (format_response out) }) ∧
    ((stage7 c).persisted = [(jsf, out)] ∧
     (stage7 c).response = some { step := 7, message := "Code review completed",
                                  output := .str (format_response out) }) ∧
    ((stage8 c).persisted.map Prod.snd = [out] ∧
     (stage8 c).response = some { step := 8, message := "Documentation sent",
                                  output := .str (format_response out) }) ∧
    ((stage9 c).persisted = [] ∧
     (stage9 c).response = some { step := 9, message := "API Key info sent",
                                  output := .list (pySplitNl out) }) := by
  refine ⟨?_, ?_, ?_, ?_, ?_, ?_, ?_, ?_, ?_⟩
  · unfold stage1
    rw [hW]
    exact ⟨rfl, rfl⟩
  · unfold stage2
    rw [h1, h2, h6, hW]
    exact ⟨rfl, rfl⟩
  · unfold stage3
    rw [h3, h4, h5, h6, h7, hW]
    dsimp only
    simp only [Option.getD_some]
    rw [persistLoop3_ok (format_response out) files paths 0 (by omega)]
    exact ⟨rfl, rfl⟩
  · unfold stage4
    rw [h3, h4, h5, h2, h6, hW]
    exact ⟨rfl, rfl⟩
  · unfold stage5
    rw [hW]
    exact ⟨rfl, rfl⟩
  · unfold stage6
    rw [h9]
    dsimp only
    rw [h2]
    dsimp only
    rw [hW]
    simp only [Option.getD_some]
    rw [if_neg hout]
    exact ⟨by trivial, by trivial⟩
  · unfold stage7
    rw [h9]
    dsimp only
    rw [hW]
    simp only [Option.getD_some]
    rw [if_neg hout]
    exact ⟨by trivial, by trivial⟩
  · unfold stage8
    rw [hW]
    exact ⟨rfl, rfl⟩
  · unfold stage9
    rw [hW]
    exact ⟨rfl, rfl⟩


/-- C4 witness: the per-stage persist/return behavior at a fenced agent
output over the full fixture context. -/
theorem C4_formatting_amended_witness :
    ((stage1 (ctxAt 1 "```python\nx```")).persisted =
        [("integrationStrategy.txt", "```python\nx```")] ∧
     (stage1 (ctxAt 1 "```python\nx```")).response =
        some { step := 1, message := "Doc review generated",
               output := .str (format_response "```python\nx```") }) ∧
    ((stage2 (ctxAt 1 "```python\nx```")).persisted.map Prod.snd =
        [format_response "```python\nx```"] ∧
     (stage2 (ctxAt 1 "```python\nx```")).response =
        some { step := 2, message := "Backend endpoints generated",
               output := .str (format_response "```python\nx```") }) ∧
    ((stage3 (ctxAt 1 "```python\nx```")).persisted =
        ["a.py", "b.js"].map (fun f => (f, format_response "```python\nx```")) ∧
     (stage3 (ctxAt 1 "```python\nx```")).response =
        some { step := 3, message := "UI components created or updated",
               output := .str (format_response "```python\nx```") }) ∧
    ((stage4 (ctxAt 1 "```python\nx```")).persisted =
        ["a.py", "b.js"].map (fun f => (f, format_response "```python\nx```")) ∧
     (stage4 (ctxAt 1 "```python\nx```")).response =
        some { step := 4, message := "Refactoring performed on suggested files",
               output := .str (format_response "```python\nx```") }) ∧
    ((stage5 (ctxAt 1 "```python\nx```")).persisted =
        [("integration_tests.py", "```python\nx```")] ∧
     (stage5 (ctxAt 1 "```python\nx```")).response =
        some { step := 5, message := "Integration tests created",
               output := .str (format_response "```python\nx```") }) ∧
    ((stage6 (ctxAt 1 "```python\nx```")).persisted = [("b.js", "```python\nx```")] ∧
     (stage6 (ctxAt 1 "```python\nx```")).response =
        some { step := 6, message := "Code review completed",
               output := .str (format_response "```python\nx```") }) ∧
    ((stage7 (ctxAt 1 "```python\nx```")).persisted = [("b.js", "```python\nx```")] ∧
     (stage7 (ctxAt 1 "```python\nx```")).response =
        some { step := 7, message := "Code review completed",
               output := .str (format_response "```python\nx```") }) ∧
    ((stage8 (ctxAt 1 "```python\nx```")).persisted.map Prod.snd = ["```python\nx```"] ∧
     (stage8 (ctxAt 1 "```python\nx```")).response =
        some { step := 8, message := "Documentation sent",
               output := .str (format_response "```python\nx```") }) ∧
    ((stage9 (ctxAt 1 "```python\nx```")).persisted = [] ∧
     (stage9 (ctxAt 1 "```python\nx```")).response =
        some { step := 9, message := "API Key info sent",
               output := .list (pySplitNl "```python\nx```") }) :=
  C4_formatting_amended (ctxAt 1 "```python\nx```") "```python\nx```"
    ["h"] ["e"] ["x"] ["y"] ["z"] ["a.py", "b.js"] ["p1", "p2"] "b.js" "JS"
    rfl (by decide) rfl rfl rfl rfl rfl rfl rfl (by decide) rfl

/-- C5 counterexample: a fence tagged with a language other than python or
jsx loses only its backticks, so the language tag leaks into the output: the
claimed any-language stripping would have produced the bare interior. -/
theorem C5_format_response_counterexample :
    format_response "```ruby\nhello" = "ruby\nhello" ∧
    ("ruby\nhello" : String) ≠ "hello" ∧
    ("ruby\nhello" : String) ≠ "\nhello" :=
  ⟨rfl, by decide, by decide⟩

/-- C5 amended: format_response is the identity on any input with no fence
marker, strips python- and jsx-tagged fences (openings with their newline and
the closing fence) leaving the interior byte-identical, but for any other
language tag removes only the backticks and leaves the tag text in place. -/
theorem C5_format_response_amended (s t : String)
    (hs : hasTicks s.data = false)
    (ht : ∀ ch ∈ t.data, ch ≠ '\x60') :
    format_response s = s ∧
    format_response ("```python\n" ++ t ++ "```") = t ∧
    format_response ("```jsx\n" ++ t ++ "```") = t ∧
    format_response ("```ruby\n" ++ t ++ "```") = "ruby\n" ++ t := by
  have hsub : subFence s.data = s.data := subFence_of_clean _ hs
  refine ⟨?_, ?_, ?_, ?_⟩
  · unfold format_response
    rw [hsub, stripTicks_of_clean _ hs, mk_data]
  · unfold format_response
    rw [String.data_append, String.data_append, List.append_assoc, subFence_pyNl,
      subFence_append_nb _ _ ht, subFence_ticks_nil,
      stripTicks_append_nb _ _ ht, stripTicks_ticks_nil, List.append_nil, mk_data]
  · unfold format_response
    rw [String.data_append, String.data_append, List.append_assoc, subFence_jsxNl,
      subFence_append_nb _ _ ht, subFence_ticks_nil,
      stripTicks_append_nb _ _ ht, stripTicks_ticks_nil, List.append_nil, mk_data]
  · unfold format_response
    rw [String.data_append, String.data_append, List.append_assoc, subFence_rubyNl,
      subFence_append_nb _ _ ht, subFence_ticks_nil]
    have h1 : ("```ruby\n".data : List Char) = "```".data ++ "ruby\n".data := rfl
    have hnb : ∀ ch ∈ "ruby\n".data, ch ≠ '\x60' := by decide
    rw [h1, List.append_assoc, stripTicks_ticks, stripTicks_append_nb _ _ hnb,
      stripTicks_append_nb _ _ ht, stripTicks_ticks_nil, List.append_nil]
    apply string_eq_of_data
    rw [String.data_append]

/-- C5 witness: a fence-free string is returned unchanged and python, jsx and
ruby fences around a clean body behave as amended. -/
theorem C5_format_response_amended_witness :
    hasTicks ("plain text").data = false ∧
    (∀ ch ∈ ("print(1)").data, ch ≠ '\x60') ∧
    format_response "plain text" = "plain text" ∧
    format_response ("```python\n" ++ "print(1)" ++ "```") = "print(1)" ∧
    format_response ("```jsx\n" ++ "print(1)" ++ "```") = "print(1)" ∧
    format_response ("```ruby\n" ++ "print(1)" ++ "```") = "ruby\n" ++ "print(1)" := by
  have H := C5_format_response_amended "plain text" "print(1)" (by decide) (by decide)
  exact ⟨by decide, by decide, H.1, H.2.1, H.2.2.1, H.2.2.2⟩


/-- C2 witness: over the full fixture context every stage writes its table
successor. -/
theorem C2_stage_successor_witness :
    ((stage1 (ctxAt 2 "OUT")).sessionAfter.map SessionState.step = some 2) ∧
    ((stage2 (ctxAt 2 "OUT")).sessionAfter.map SessionState.step = some 3 ∨
      (stage2 (ctxAt 2 "OUT")).sessionAfter = none) ∧
    ((stage3 (ctxAt 2 "OUT")).sessionAfter.map SessionState.step = some 4 ∨
      (stage3 (ctxAt 2 "OUT")).sessionAfter = none) ∧
    ((stage4 (ctxAt 2 "OUT")).sessionAfter.map SessionState.step = some 9 ∨
      (stage4 (ctxAt 2 "OUT")).sessionAfter = none) ∧
    ((stage5 (ctxAt 2 "OUT")).sessionAfter.map SessionState.step = some 8) ∧
    ((stage6 (ctxAt 2 "OUT")).sessionAfter.map SessionState.step = some 7 ∨
      (stage6 (ctxAt 2 "OUT")).sessionAfter = none) ∧
    ((stage7 (ctxAt 2 "OUT")).sessionAfter.map SessionState.step = some 8 ∨
      (stage7 (ctxAt 2 "OUT")).sessionAfter = none) ∧
    ((stage8 (ctxAt 2 "OUT")).sessionAfter.map SessionState.step = some 9) ∧
    ((stage9 (ctxAt 2 "OUT")).sessionAfter.map SessionState.step = some 10) :=
  C2_stage_successor (ctxAt 2 "OUT")

end Serve
